import Mathlib

/-!
# Verification of the GazelleV2 real-time lighting core

Shallow embedding of the DMX channel buffer, the DMX frame serializer,
the audio transport, the sequence playback scheduler, and the playlist
trigger state machine, translated from `app/hardware/hardware.py`,
`app/services/playback.py` and `app/api/playback_api.py`, together with
theorems settling the specification's claims about them.

Python floats standing for wall-clock seconds are modelled as rationals;
the 8-bit channel store is a `List Nat` mirroring `bytearray(512)`.
-/

namespace Gazelle

/-! ## DMXController (`app/hardware/hardware.py`, class `DMXController`)

`self.dmx_data = bytearray(512)` is modelled as a `List Nat` of length 512,
index `i` holding the value of DMX address `i+1`. -/

namespace DMXController

/-- `max(0, min(255, int(value)))` — the defensive clamp in `set_channel`
and `set_channels`.  Channel values arrive as Python ints, modelled `Int`. -/
def clampByte (value : Int) : Nat := (max 0 (min 255 value)).toNat

/-- The freshly constructed buffer: `bytearray(512)`, all zeros. -/
def initDmx : List Nat := List.replicate 512 0

/-- `set_channel(channel, value)`: writes `dmx_data[channel-1]` clamped,
only when `1 <= channel <= 512`; otherwise no-op. -/
def set_channel (buf : List Nat) (channel value : Int) : List Nat :=
  if 1 ≤ channel ∧ channel ≤ 512 then
    buf.set (channel - 1).toNat (clampByte value)
  else buf

/-- `get_channel(channel)`: reads `dmx_data[channel-1]` when
`1 <= channel <= 512`, else returns 0. -/
def get_channel (buf : List Nat) (channel : Int) : Nat :=
  if 1 ≤ channel ∧ channel ≤ 512 then
    buf.getD (channel - 1).toNat 0
  else 0

/-- `set_channels(channel_dict)`: applies the same guarded clamped write
for every (channel, value) pair. -/
def set_channels (buf : List Nat) (entries : List (Int × Int)) : List Nat :=
  entries.foldl
    (fun b cv =>
      if 1 ≤ cv.1 ∧ cv.1 ≤ 512 then b.set (cv.1 - 1).toNat (clampByte cv.2)
      else b)
    buf

/-- `clear_all()`: `self.dmx_data = bytearray(512)`. -/
def clear_all (_buf : List Nat) : List Nat := List.replicate 512 0

/-- The data packet built per tick in `_send_dmx_frame`:
`packet = bytearray([0]); packet.extend(self.dmx_data)`. -/
def dmxPacket (buf : List Nat) : List Nat := 0 :: buf

/-- Buffers producible by the `DMXController` API from construction. -/
inductive ReachableBuf : List Nat → Prop
  | init : ReachableBuf initDmx
  | set (buf : List Nat) (channel value : Int) :
      ReachableBuf buf → ReachableBuf (set_channel buf channel value)
  | setMany (buf : List Nat) (entries : List (Int × Int)) :
      ReachableBuf buf → ReachableBuf (set_channels buf entries)
  | clear (buf : List Nat) : ReachableBuf buf → ReachableBuf (clear_all buf)

end DMXController

/-! ## AudioPlayer (`app/hardware/hardware.py`, class `AudioPlayer`)

Wall-clock instants (`time.time()`) are passed in explicitly as `now : ℚ`.
Python float truthiness (`if self.start_time:`) is `≠ 0`. -/

/-- The mutable fields of `AudioPlayer.__init__`. -/
structure AudioState where
  current_song : Option String
  is_playing : Bool
  start_time : ℚ
  pause_time : ℚ
  total_pause_duration : ℚ
  seek_offset : ℚ
  deriving Repr, DecidableEq

namespace AudioPlayer

/-- `AudioPlayer()` constructor state. -/
def initAudio : AudioState :=
  { current_song := none, is_playing := false, start_time := 0,
    pause_time := 0, total_pause_duration := 0, seek_offset := 0 }

/-- `load_song(file_path)`: `pygame.mixer.music.load` either succeeds
(`ok = true`; `current_song` is recorded, returns `True`) or raises
(`ok = false`; state untouched, returns `False`). -/
def load_song (ok : Bool) (file_path : String) (s : AudioState) :
    AudioState × Bool :=
  if ok then ({ s with current_song := some file_path }, true)
  else (s, false)

/-- `play(start_position=0)`: only acts when a song is loaded; records the
start timestamp, zeroes the accumulated pause duration, and stores the
start position as the seek offset.  (`pause_time` is not touched.) -/
def play (now : ℚ) (start_position : ℚ) (s : AudioState) :
    AudioState × Bool :=
  match s.current_song with
  | some _ =>
      ({ s with is_playing := true, start_time := now,
                total_pause_duration := 0, seek_offset := start_position },
       true)
  | none => (s, false)

/-- `pause()`: records the pause timestamp and clears the playing flag. -/
def pause (now : ℚ) (s : AudioState) : AudioState :=
  if s.is_playing then
    { s with is_playing := false, pause_time := now }
  else s

/-- `resume()`: accumulates the elapsed pause span into
`total_pause_duration` and clears `pause_time`. -/
def resume (now : ℚ) (s : AudioState) : AudioState :=
  if ¬s.is_playing ∧ s.pause_time > 0 then
    { s with is_playing := true,
             total_pause_duration := s.total_pause_duration + (now - s.pause_time),
             pause_time := 0 }
  else s

/-- `stop()`: halts output and resets every timing field to zero. -/
def stop (s : AudioState) : AudioState :=
  { s with is_playing := false, start_time := 0, pause_time := 0,
           total_pause_duration := 0, seek_offset := 0 }

/-- `seek(position)`: when a song is loaded and playing, restarts output at
`position` (fresh start timestamp, cleared pause total); when not playing,
just stores `position` as the pending offset.  The embedded restart is the
success branch of the inner `try` (a pygame failure is not modelled: the
claims quantify over successful seeks). -/
def seek (now : ℚ) (position : ℚ) (s : AudioState) : AudioState × Bool :=
  match s.current_song with
  | some _ =>
      if s.is_playing then
        ({ s with is_playing := true, start_time := now,
                  total_pause_duration := 0, seek_offset := position },
         true)
      else
        ({ s with seek_offset := position }, true)
  | none => (s, false)

/-- `get_position()`: elapsed time while playing, the frozen elapsed time
while paused, or the pending seek offset otherwise.  The first two
branches clamp with `max(0, ...)`; the third returns `seek_offset` raw. -/
def get_position (now : ℚ) (s : AudioState) : ℚ :=
  if s.is_playing ∧ s.start_time ≠ 0 then
    max 0 (now - s.start_time - s.total_pause_duration + s.seek_offset)
  else if s.pause_time > 0 then
    max 0 (s.pause_time - s.start_time - s.total_pause_duration + s.seek_offset)
  else s.seek_offset

end AudioPlayer

/-! ## DMX event execution (`app/services/playback.py`, `execute_dmx_event`)

Events are JSON dicts; `event.get(k, d)` defaulting is resolved into typed
fields (`value` defaults to the scalar 0, absent `color` is `none`).
Failure paths that raise in Python (`int('', 16)` on a short hex slice,
`dict * int`, `float.get`) are `Except.error`. -/

/-- `event.get('value', 0)`: either a scalar or a `{pan, tilt}` dict
(missing dict keys modelled as `none`). -/
inductive EventValue
  | num (q : ℚ)
  | posDict (pan tilt : Option Int)
  deriving Repr, DecidableEq

/-- `event.get('color')` when present: a hex string or an `{r,g,b,w}` dict
(missing keys modelled as `none`). -/
inductive ColorPayload
  | hexStr (s : String)
  | rgbw (r g b w : Option Int)
  deriving Repr, DecidableEq

/-- The Python dict produced by the color-resolution step: keys that may be
absent are `Option`s, read with `.get(k, 0)` ≅ `.getD 0`. -/
structure RGBW where
  r : Option Int
  g : Option Int
  b : Option Int
  w : Option Int
  deriving Repr, DecidableEq

/-- One timed lighting event as consumed by `execute_dmx_event`. -/
structure DmxEvent where
  device_id : Nat
  etype : String
  value : EventValue
  color : Option ColorPayload
  deriving Repr, DecidableEq

/-- A patched fixture as the lookup returns it: start DMX address plus the
ordered channel-role list (`channel.get('type')` strings). -/
structure PatchedDevice where
  start_address : Int
  channels : List String
  deriving Repr, DecidableEq

/-- One hex digit, as accepted by Python `int(_, 16)`. -/
def hexDigit (c : Char) : Option Nat :=
  if '0' ≤ c ∧ c ≤ '9' then some (c.toNat - '0'.toNat)
  else if 'a' ≤ c ∧ c ≤ 'f' then some (c.toNat - 'a'.toNat + 10)
  else if 'A' ≤ c ∧ c ≤ 'F' then some (c.toNat - 'A'.toNat + 10)
  else none

/-- `int(s, 16)` on a digit string: raises (`.error`) on the empty string
or a non-digit, exactly as Python does. -/
def pyIntHex (cs : List Char) : Except String Int :=
  match cs with
  | [] => .error "ValueError: invalid literal for int with base 16"
  | _ :: _ =>
      (cs.foldl
        (fun acc c =>
          match acc, hexDigit c with
          | .ok n, some d => .ok (n * 16 + d)
          | _, _ => .error "ValueError: invalid literal for int with base 16")
        (.ok 0))

/-- Python slice `s[a:b]` on a character list (short strings yield short
or empty slices, never an error). -/
def pySlice (cs : List Char) (a b : Nat) : List Char :=
  (cs.drop a).take (b - a)

/-- The color-resolution block at the top of the `'color'` branch:
`hex_color = color_value.lstrip('#')` then three two-digit slices parsed
with `int(_, 16)` into `{'r': r, 'g': g, 'b': b}` (no `'w'` key);
a dict payload is used as-is; `color_value or {}` turns `None` into the
empty dict. -/
def resolveColor : Option ColorPayload → Except String RGBW
  | some (.hexStr s) => do
      let cs := s.data.dropWhile (fun c => c = '#')
      let r ← pyIntHex (pySlice cs 0 2)
      let g ← pyIntHex (pySlice cs 2 4)
      let b ← pyIntHex (pySlice cs 4 6)
      pure ⟨some r, some g, some b, none⟩
  | some (.rgbw r g b w) => pure ⟨r, g, b, w⟩
  | none => pure ⟨none, none, none, none⟩

/-- Python `int()` truncation toward zero on a rational:
`num/den` in lowest terms (den > 0) under T-division. -/
def pyInt (q : ℚ) : Int := Int.tdiv q.num (q.den : Int)

/-- The `for i, channel in enumerate(channels)` body of
`execute_dmx_event`, threading the DMX buffer and propagating raised
exceptions as `Except.error`. -/
def execChannels (pd : PatchedDevice) (ev : DmxEvent) :
    List String → Nat → List Nat → Except String (List Nat)
  | [], _, buf => pure buf
  | ctype :: rest, i, buf => do
      let addr : Int := pd.start_address + (i : Int)
      let buf' ←
        if ev.etype = "dimmer" ∧ ctype = "dimmer_channel" then
          match ev.value with
          | .num q => pure (DMXController.set_channel buf addr (pyInt (q * 255 / 100)))
          | .posDict _ _ => .error "TypeError: unsupported operand for dict"
        else if ev.etype = "color" then do
          let c ← resolveColor ev.color
          if ctype = "red_channel" then
            pure (DMXController.set_channel buf addr (c.r.getD 0))
          else if ctype = "green_channel" then
            pure (DMXController.set_channel buf addr (c.g.getD 0))
          else if ctype = "blue_channel" then
            pure (DMXController.set_channel buf addr (c.b.getD 0))
          else if ctype = "white_channel" then
            pure (DMXController.set_channel buf addr (c.w.getD 0))
          else pure buf
        else if ev.etype = "position" then
          if ctype = "pan" then
            match ev.value with
            | .posDict pan _ => pure (DMXController.set_channel buf addr (pan.getD 0))
            | .num _ => .error "AttributeError: no attribute get"
          else if ctype = "tilt" then
            match ev.value with
            | .posDict _ tilt => pure (DMXController.set_channel buf addr (tilt.getD 0))
            | .num _ => .error "AttributeError: no attribute get"
          else pure buf
        else pure buf
      execChannels pd ev rest (i + 1) buf'

/-- `execute_dmx_event(event)`: resolve the patched fixture (an unknown id
is logged and skipped) and apply every channel write. -/
def execute_dmx_event (lookup : Nat → Option PatchedDevice) (ev : DmxEvent)
    (buf : List Nat) : Except String (List Nat) :=
  match lookup ev.device_id with
  | none => pure buf
  | some pd => execChannels pd ev pd.channels 0 buf

/-! ## Sequence scheduler (`app/services/playback.py`, `sequence_playback_loop`)

The loop's interaction with its environment — each iteration reads the
global `is_playing` flag and `time.time()` — is embedded as a trace of
`(now, is_playing)` samples, one per reached iteration of the `while`.
`event.get('time', 0)` / `event.get('duration', 2.0)` defaulting is
resolved into the fields; `payload` stands for the rest of the event dict
handed to `execute_dmx_event`. -/

/-- One event as seen by the scheduler. -/
structure LoopEvent where
  time : ℚ
  duration : ℚ
  payload : Nat
  deriving Repr, DecidableEq

/-- Stable insertion preserving earlier elements with equal times, as
Python's stable `list.sort(key=lambda x: x.get('time', 0))` does. -/
def insertByTime (e : LoopEvent) : List LoopEvent → List LoopEvent
  | [] => [e]
  | x :: xs => if x.time < e.time then x :: insertByTime e xs else e :: x :: xs

/-- `events.sort(key=lambda x: x.get('time', 0))`. -/
def sortByTime : List LoopEvent → List LoopEvent
  | [] => []
  | e :: es => insertByTime e (sortByTime es)

/-- The loop's local variables: the unfired suffix of the sorted event
list (`event_index` onward), `active_events`, and the log of fired
events in firing order. -/
structure LoopState where
  remaining : List LoopEvent
  active : List LoopEvent
  fired : List LoopEvent
  deriving Repr, DecidableEq

/-- One iteration body: `current_time = time.time() - start_time +
start_time_offset`; fire every leading event with `time ≤ current_time`
(appending it to `active_events`), then clear every active event with
`time + duration ≤ current_time`. -/
def loopStep (start_time start_time_offset now : ℚ) (st : LoopState) : LoopState :=
  let current_time := now - start_time + start_time_offset
  let nowFired := st.remaining.takeWhile (fun e => decide (e.time ≤ current_time))
  let rem := st.remaining.dropWhile (fun e => decide (e.time ≤ current_time))
  let act := (st.active ++ nowFired).filter
    (fun e => decide (¬(e.time + e.duration ≤ current_time)))
  ⟨rem, act, st.fired ++ nowFired⟩

/-- `while is_playing and (event_index < len(events) or active_events):`
— the first sample whose flag is false (or an exhausted event list with an
empty active set) terminates the loop; later samples are never processed,
the thread has returned. -/
def runTicks (start_time start_time_offset : ℚ) :
    LoopState → List (ℚ × Bool) → LoopState
  | st, [] => st
  | st, (now, flag) :: rest =>
      if flag ∧ (st.remaining ≠ [] ∨ st.active ≠ []) then
        runTicks start_time start_time_offset
          (loopStep start_time start_time_offset now st) rest
      else st

/-- `sequence_playback_loop(sequence, start_time_offset)`: sort the events,
skip those strictly before the start offset, then run the tick loop.
`start_time` is the wall clock at loop entry. -/
def sequence_playback_loop (events : List LoopEvent)
    (start_time_offset start_time : ℚ) (ticks : List (ℚ × Bool)) : LoopState :=
  let evs := sortByTime events
  let rem := evs.dropWhile (fun e => decide (e.time < start_time_offset))
  runTicks start_time start_time_offset ⟨rem, [], []⟩ ticks

/-! ## Playback service state (`app/services/playback.py` globals and
`play_sequence` / `stop_playback` / `pause_playback` / `resume_playback`,
plus the `/api/seek-sequence` route of `app/api/playback_api.py`). -/

/-- The module-level playback state: `current_sequence`, `is_playing`, and
the owned audio player and DMX buffer. -/
structure PlaybackState where
  current_sequence : Option Nat
  is_playing : Bool
  audio : AudioState
  dmx : List Nat
  deriving Repr, DecidableEq

/-- Process start: no sequence, not playing, fresh audio player and DMX
buffer. -/
def initPlayback : PlaybackState :=
  { current_sequence := none, is_playing := false,
    audio := AudioPlayer.initAudio, dmx := DMXController.initDmx }

/-- `stop_playback()`: clears the flag and the sequence reference, stops
audio, clears all DMX channels. -/
def stop_playback (st : PlaybackState) : PlaybackState :=
  { current_sequence := none, is_playing := false,
    audio := AudioPlayer.stop st.audio,
    dmx := DMXController.clear_all st.dmx }

/-- `play_sequence(sequence, start_time=0)`: stop any existing playback,
set `current_sequence` and `is_playing` (before attempting the load!),
then load the song — on success start audio and the playback thread
(returned boolean `true`), on failure just log (`false`; the assignments
made above are not rolled back). `loadOk` is whether
`pygame.mixer.music.load` succeeds on this file. -/
def play_sequence (now : ℚ) (loadOk : Bool) (seqId : Nat) (songPath : String)
    (start_time : ℚ) (st : PlaybackState) : PlaybackState × Bool :=
  let st1 := if st.is_playing then stop_playback st else st
  let st2 := { st1 with current_sequence := some seqId, is_playing := true }
  match AudioPlayer.load_song loadOk songPath st2.audio with
  | (a, true) =>
      let pa := AudioPlayer.play now start_time a
      ({ st2 with audio := pa.1 }, true)
  | (a, false) => ({ st2 with audio := a }, false)

/-- `pause_playback()`: clear the flag (which terminates the scheduler
loop's `while` condition) and pause the audio. -/
def pause_playback (now : ℚ) (st : PlaybackState) : PlaybackState :=
  if st.is_playing then
    { st with is_playing := false, audio := AudioPlayer.pause now st.audio }
  else st

/-- `resume_playback()`: set the flag again and resume the audio. -/
def resume_playback (now : ℚ) (st : PlaybackState) : PlaybackState :=
  if ¬st.is_playing ∧ st.current_sequence.isSome then
    { st with is_playing := true, audio := AudioPlayer.resume now st.audio }
  else st

/-- `/api/seek-sequence`: rejects when no sequence is loaded, otherwise
calls `playback.audio_player.seek(position)` — and nothing else: the
running scheduler loop's local state is not consulted or altered. -/
def seek_sequence (now position : ℚ) (st : PlaybackState) : PlaybackState × Bool :=
  if st.current_sequence.isSome then
    let r := AudioPlayer.seek now position st.audio
    ({ st with audio := r.1 }, r.2)
  else (st, false)

/-! ## Playlist trigger (`app/services/playback.py`,
`trigger_sequence_playback`)

The database snapshot (active playlists with their ordered sequence-id
lists and `random_mode` flags) is a parameter; `random.shuffle` is an
oracle `shuffleFn`.  The function returns the selected sequence id (if
any) and the new cursor globals. -/

/-- An active playlist as the query returns it. -/
structure Playlist where
  sequences : List Nat
  random_mode : Bool
  deriving Repr, DecidableEq

/-- The module-level cursor globals. -/
structure Cursor where
  current_playlist_index : Nat
  current_sequence_index : Nat
  shuffled_sequence_order : List Nat
  deriving Repr, DecidableEq

/-- Python `set(a) != set(b)` negated: equality of element sets. -/
def pySetEq (a b : List Nat) : Bool :=
  a.all (fun x => b.contains x) && b.all (fun x => a.contains x)

/-- The playlist/sequence selection body executed once the lock is held
(lines 101–157): validate the playlist index, advance past empty
playlists, then pick the next id in shuffled or cycle order, advancing
the cursor and wrapping to the next active playlist on exhaustion. -/
def trigger_select (shuffleFn : List Nat → List Nat) (playlists : List Playlist)
    (c : Cursor) : Option Nat × Cursor :=
  if playlists.isEmpty then (none, c) else
  let pIdx := if playlists.length ≤ c.current_playlist_index then 0
              else c.current_playlist_index
  let playlist := playlists.getD pIdx ⟨[], false⟩
  let ids := playlist.sequences
  if ids.isEmpty then
    (none, ⟨(pIdx + 1) % playlists.length, 0, []⟩)
  else if playlist.random_mode then
    let reshuffle := c.shuffled_sequence_order.isEmpty
      ∨ ¬(pySetEq c.shuffled_sequence_order ids = true)
      ∨ c.shuffled_sequence_order.length ≤ c.current_sequence_index
    let order := if reshuffle then shuffleFn ids else c.shuffled_sequence_order
    let sIdx := if reshuffle then 0 else c.current_sequence_index
    let sid := order.getD sIdx 0
    if order.length ≤ sIdx + 1 then
      (some sid, ⟨(pIdx + 1) % playlists.length, 0, []⟩)
    else
      (some sid, ⟨pIdx, sIdx + 1, order⟩)
  else
    let sIdx := if ids.length ≤ c.current_sequence_index then 0
                else c.current_sequence_index
    let sid := ids.getD sIdx 0
    if ids.length ≤ sIdx + 1 then
      (some sid, ⟨(pIdx + 1) % playlists.length, 0, c.shuffled_sequence_order⟩)
    else
      (some sid, ⟨pIdx, sIdx + 1, c.shuffled_sequence_order⟩)

/-- `trigger_sequence_playback()` entry: `playback_lock.acquire(blocking=
False)` — when the lock is already held the press is dropped before any
global is read or written. -/
def trigger_sequence_playback (lock_held : Bool)
    (shuffleFn : List Nat → List Nat) (playlists : List Playlist)
    (c : Cursor) : Option Nat × Cursor :=
  if lock_held then (none, c) else trigger_select shuffleFn playlists c

/-- The specification's dimmer conversion, for comparison with the code's
`int(value * 255 / 100)`: written from the spec's words
`round(value*255/100)` (round half up). -/
def specRound (q : ℚ) : Int := ⌊q + 1 / 2⌋

/-! ## Helper lemmas -/

namespace DMXController

theorem length_set_channel (buf : List Nat) (channel value : Int) :
    (set_channel buf channel value).length = buf.length := by
  unfold set_channel
  split <;> simp

theorem length_set_channels (buf : List Nat) (entries : List (Int × Int)) :
    (set_channels buf entries).length = buf.length := by
  induction entries generalizing buf with
  | nil => rfl
  | cons e rest ih =>
      show (set_channels _ _).length = _
      unfold set_channels
      simp only [List.foldl_cons]
      rw [show List.foldl _ _ rest = set_channels (if 1 ≤ e.1 ∧ e.1 ≤ 512 then
        buf.set (e.1 - 1).toNat (clampByte e.2) else buf) rest from rfl, ih]
      split <;> simp

/-- Every reachable buffer keeps the `bytearray(512)` length. -/
theorem ReachableBuf.length_eq {buf : List Nat} (h : ReachableBuf buf) :
    buf.length = 512 := by
  induction h with
  | init => exact List.length_replicate 512 0
  | set buf channel value _ ih => rw [length_set_channel, ih]
  | setMany buf entries _ ih => rw [length_set_channels, ih]
  | clear buf _ _ => exact List.length_replicate 512 0

end DMXController

/-! ## Claims about the channel buffer and the wire frame -/

/-- Read-after-write behaviour of the channel buffer: an in-range write of
an in-range value reads back exactly, an out-of-range write is a no-op
and an out-of-range read is 0. -/
theorem dmx_set_get_spec (buf : List Nat) (hlen : buf.length = 512)
    (a v : Int) :
    (1 ≤ a → a ≤ 512 → 0 ≤ v → v ≤ 255 →
      (DMXController.get_channel (DMXController.set_channel buf a v) a : Int) = v)
    ∧ (¬(1 ≤ a ∧ a ≤ 512) →
      DMXController.set_channel buf a v = buf
        ∧ DMXController.get_channel buf a = 0) := by
  constructor
  · intro h1 h2 h3 h4
    unfold DMXController.get_channel DMXController.set_channel
    rw [if_pos ⟨h1, h2⟩, if_pos ⟨h1, h2⟩]
    have hidx : (a - 1).toNat < buf.length := by rw [hlen]; omega
    rw [List.getD_eq_getElem?_getD,
        List.getElem?_set_eq_of_lt _ (by simpa using hidx)]
    simp only [Option.getD_some]
    simp only [DMXController.clampByte]
    omega
  · intro h
    unfold DMXController.get_channel DMXController.set_channel
    rw [if_neg h, if_neg h]
    exact ⟨rfl, rfl⟩

/-- C6: for all addresses `a` in [1,512] and values `v` in [0,255],
`set_channel(a,v)` followed by `get_channel(a)` returns `v`; for `a`
outside [1,512], `set_channel` leaves the buffer unchanged and
`get_channel` returns 0. -/
theorem dmx_set_get_contract (buf : List Nat) (hlen : buf.length = 512)
    (a v : Int) :
    (1 ≤ a → a ≤ 512 → 0 ≤ v → v ≤ 255 →
      (DMXController.get_channel (DMXController.set_channel buf a v) a : Int) = v)
    ∧ (¬(1 ≤ a ∧ a ≤ 512) →
      DMXController.set_channel buf a v = buf
        ∧ DMXController.get_channel buf a = 0) :=
  dmx_set_get_spec buf hlen a v

theorem dmx_set_get_contract_witness :
    ((DMXController.get_channel
        (DMXController.set_channel DMXController.initDmx 5 77) 5 : Int) = 77)
    ∧ (DMXController.set_channel DMXController.initDmx 600 9 = DMXController.initDmx
       ∧ DMXController.get_channel DMXController.initDmx 600 = 0) :=
  ⟨(dmx_set_get_contract DMXController.initDmx (List.length_replicate 512 0) 5 77).1
      (by decide) (by decide) (by decide) (by decide),
   (dmx_set_get_contract DMXController.initDmx (List.length_replicate 512 0) 600 9).2
      (by decide)⟩

/-- C7: for every buffer state reachable through the `DMXController` API,
the per-tick data packet of `_send_dmx_frame` is exactly 513 bytes: a
start code byte 0 followed by the 512 channel values in address order. -/
theorem dmx_packet_structure (buf : List Nat)
    (h : DMXController.ReachableBuf buf) :
    (DMXController.dmxPacket buf).length = 513
    ∧ (DMXController.dmxPacket buf).head? = some 0
    ∧ (DMXController.dmxPacket buf).tail = buf := by
  refine ⟨?_, rfl, rfl⟩
  simp [DMXController.dmxPacket, h.length_eq]

theorem dmx_packet_structure_witness :
    (DMXController.dmxPacket DMXController.initDmx).length = 513
    ∧ (DMXController.dmxPacket DMXController.initDmx).head? = some 0
    ∧ (DMXController.dmxPacket DMXController.initDmx).tail = DMXController.initDmx :=
  dmx_packet_structure DMXController.initDmx DMXController.ReachableBuf.init

/-! ## Claims about the playlist trigger -/

/-- C8: with a single active playlist in cycle mode holding sequence ids
`[A,B,C]`, four consecutive successful triggers select A, B, C, A — the
sequence index advances monotonically and wraps to 0 when the list is
exhausted.  (The cooldown gate lives in `button_handler`; "four
consecutive successful triggers" means the selection body runs four
times.) -/
theorem cycle_mode_order_abca (A B C : Nat) (shuffleFn : List Nat → List Nat) :
    (trigger_sequence_playback false shuffleFn [⟨[A, B, C], false⟩] ⟨0, 0, []⟩).1
      = some A
    ∧ (trigger_sequence_playback false shuffleFn [⟨[A, B, C], false⟩]
        (trigger_sequence_playback false shuffleFn [⟨[A, B, C], false⟩] ⟨0, 0, []⟩).2).1
      = some B
    ∧ (trigger_sequence_playback false shuffleFn [⟨[A, B, C], false⟩]
        (trigger_sequence_playback false shuffleFn [⟨[A, B, C], false⟩]
          (trigger_sequence_playback false shuffleFn [⟨[A, B, C], false⟩] ⟨0, 0, []⟩).2).2).1
      = some C
    ∧ (trigger_sequence_playback false shuffleFn [⟨[A, B, C], false⟩]
        (trigger_sequence_playback false shuffleFn [⟨[A, B, C], false⟩]
          (trigger_sequence_playback false shuffleFn [⟨[A, B, C], false⟩]
            (trigger_sequence_playback false shuffleFn [⟨[A, B, C], false⟩] ⟨0, 0, []⟩).2).2).2).1
      = some A := by
  have h1 : trigger_sequence_playback false shuffleFn [⟨[A, B, C], false⟩] ⟨0, 0, []⟩
      = (some A, ⟨0, 1, []⟩) := by
    simp [trigger_sequence_playback, trigger_select]
  have h2 : trigger_sequence_playback false shuffleFn [⟨[A, B, C], false⟩] ⟨0, 1, []⟩
      = (some B, ⟨0, 2, []⟩) := by
    simp [trigger_sequence_playback, trigger_select]
  have h3 : trigger_sequence_playback false shuffleFn [⟨[A, B, C], false⟩] ⟨0, 2, []⟩
      = (some C, ⟨0, 0, []⟩) := by
    simp [trigger_sequence_playback, trigger_select]
  refine ⟨?_, ?_, ?_, ?_⟩ <;> simp [h1, h2, h3]

/-- C9: a trigger arriving while the playback lock is already held is
dropped immediately: no sequence is selected and the cursor globals
(playlist index, sequence index, shuffled order) are left unchanged. -/
theorem locked_trigger_dropped (shuffleFn : List Nat → List Nat)
    (playlists : List Playlist) (c : Cursor) :
    trigger_sequence_playback true shuffleFn playlists c = (none, c) := rfl

/-! ## Claims about the audio position computation -/

/-- C10, as stated, is false: `get_position` clamps the playing and paused
branches but returns `seek_offset` unclamped in the stopped state, and a
negative seek offset is storable — loading a song and then seeking to
position −1 while stopped makes `get_position` return −1 < 0. -/
theorem get_position_negative_cex :
    AudioPlayer.get_position 9
      (AudioPlayer.seek 5 (-1)
        (AudioPlayer.load_song true "track.mp3" AudioPlayer.initAudio).1).1
      = -1
    ∧ AudioPlayer.get_position 9
        (AudioPlayer.seek 5 (-1)
          (AudioPlayer.load_song true "track.mp3" AudioPlayer.initAudio).1).1
      < 0 := by
  constructor <;> decide

/-- C10 (amended): the playing and paused branches of `get_position` are
clamped with `max(0, ...)`, but the stopped branch returns the stored
seek offset as-is; consequently `get_position` is nonnegative in every
state whose stored seek offset is nonnegative (and can go negative only
through a negative stored seek offset). -/
theorem get_position_nonneg_of_offset_nonneg (now : ℚ) (s : AudioState)
    (h : 0 ≤ s.seek_offset) : 0 ≤ AudioPlayer.get_position now s := by
  unfold AudioPlayer.get_position
  split
  · exact le_max_left 0 _
  · split
    · exact le_max_left 0 _
    · exact h

theorem get_position_nonneg_witness :
    0 ≤ (AudioPlayer.initAudio).seek_offset
    ∧ 0 ≤ AudioPlayer.get_position 3 AudioPlayer.initAudio :=
  ⟨by decide, get_position_nonneg_of_offset_nonneg 3 AudioPlayer.initAudio (by decide)⟩

/-! ## Claims about starting playback -/

/-- C2, as stated, is false: when the audio load fails, `play_sequence`
has already set `is_playing = True` and `current_sequence` before the
load attempt and does not roll them back — starting from the pristine
state with a failing file leaves the playing flag set and the sequence
reference retained (though it does return without starting the playback
thread). -/
theorem play_sequence_failed_load_cex :
    ((play_sequence 0 false 7 "bad.mp3" 0 initPlayback).1.is_playing = true)
    ∧ ((play_sequence 0 false 7 "bad.mp3" 0 initPlayback).1.current_sequence = some 7)
    ∧ ((play_sequence 0 false 7 "bad.mp3" 0 initPlayback).2 = false) := by
  decide

/-- C2 (amended): when the audio load fails, `play_sequence` starts no
audio output and no event-scheduling loop and returns without playing —
but the playing flag is set and the current-sequence reference is
retained, because both are assigned before the load is attempted.
(The hypothesis is the audio/service sync invariant: the audio device
only plays while the service flag is set.) -/
theorem play_sequence_failed_load_behavior (now : ℚ) (seqId : Nat)
    (songPath : String) (start_time : ℚ) (st : PlaybackState)
    (hsync : st.audio.is_playing = true → st.is_playing = true) :
    (play_sequence now false seqId songPath start_time st).2 = false
    ∧ (play_sequence now false seqId songPath start_time st).1.audio.is_playing = false
    ∧ (play_sequence now false seqId songPath start_time st).1.is_playing = true
    ∧ (play_sequence now false seqId songPath start_time st).1.current_sequence
        = some seqId := by
  unfold play_sequence
  simp only [AudioPlayer.load_song, if_neg (Bool.false_ne_true)]
  by_cases hp : st.is_playing
  · simp [hp, stop_playback, AudioPlayer.stop]
  · have : st.audio.is_playing = false := by
      cases h : st.audio.is_playing
      · rfl
      · exact absurd (hsync h) hp
    simp [hp, this]

theorem play_sequence_failed_load_witness :
    ((initPlayback.audio.is_playing = true → initPlayback.is_playing = true))
    ∧ (play_sequence 2 false 7 "bad.mp3" 0 initPlayback).2 = false
    ∧ (play_sequence 2 false 7 "bad.mp3" 0 initPlayback).1.audio.is_playing = false
    ∧ (play_sequence 2 false 7 "bad.mp3" 0 initPlayback).1.is_playing = true
    ∧ (play_sequence 2 false 7 "bad.mp3" 0 initPlayback).1.current_sequence = some 7 :=
  ⟨by decide,
   play_sequence_failed_load_behavior 2 7 "bad.mp3" 0 initPlayback (by decide)⟩

/-! ## Claims about DMX event execution -/

/-- Python `int()` agrees with the floor on nonnegative rationals. -/
theorem pyInt_eq_floor (q : ℚ) (h : 0 ≤ q) : pyInt q = ⌊q⌋ := by
  unfold pyInt
  rw [Rat.floor_def]
  exact Int.tdiv_eq_ediv (Rat.num_nonneg.2 h) (Int.ofNat_nonneg q.den)

/-- Executing a dimmer event against a single-dimmer-channel fixture
performs exactly one clamped channel write of `int(v * 255 / 100)`. -/
theorem execute_dimmer_single (v : ℚ) (a : Int) (buf : List Nat) :
    execute_dmx_event (fun _ => some ⟨a, ["dimmer_channel"]⟩)
        ⟨3, "dimmer", EventValue.num v, none⟩ buf
      = Except.ok (DMXController.set_channel buf a (pyInt (v * 255 / 100))) := by
  simp only [execute_dmx_event, execChannels]
  norm_num
  rfl

/-- C4, as stated, is false at `v = 50`: the code computes
`int(50 * 255 / 100) = int(127.5) = 127` (truncation), while the claimed
`round(50*255/100)` is 128, so a 50% dimmer event writes 127, not
`round(v*255/100)`. -/
theorem dimmer_rounding_cex :
    (execute_dmx_event (fun _ => some ⟨1, ["dimmer_channel"]⟩)
        ⟨3, "dimmer", EventValue.num 50, none⟩ DMXController.initDmx).map
      (fun b => DMXController.get_channel b 1) = Except.ok 127
    ∧ specRound ((50 : ℚ) * 255 / 100) = 128
    ∧ (127 : Nat) ≠ 128 := by
  have h127 : pyInt ((50 : ℚ) * 255 / 100) = 127 := by
    rw [pyInt_eq_floor _ (by norm_num)]
    norm_num
  refine ⟨?_, ?_, by decide⟩
  · rw [execute_dimmer_single 50 1 DMXController.initDmx, h127]
    have : DMXController.get_channel
        (DMXController.set_channel DMXController.initDmx 1 127) 1 = 127 := by decide
    simp [Except.map, this]
  · unfold specRound
    norm_num

/-- C4 (amended): for a dimmer event with scalar value `v ∈ [0,100]`, the
value written to the fixture's dimmer channel is the truncation
`int(v*255/100) = ⌊v*255/100⌋` (not the rounding `round(v*255/100)`); in
particular a 50% dimmer event writes 127 (≈128). -/
theorem dimmer_event_scaling (v : ℚ) (a : Int) (buf : List Nat)
    (hv0 : 0 ≤ v) (hv1 : v ≤ 100) (ha1 : 1 ≤ a) (ha2 : a ≤ 512)
    (hlen : buf.length = 512) :
    execute_dmx_event (fun _ => some ⟨a, ["dimmer_channel"]⟩)
        ⟨3, "dimmer", EventValue.num v, none⟩ buf
      = Except.ok (DMXController.set_channel buf a (pyInt (v * 255 / 100)))
    ∧ pyInt (v * 255 / 100) = ⌊v * 255 / 100⌋
    ∧ (DMXController.get_channel
        (DMXController.set_channel buf a (pyInt (v * 255 / 100))) a : Int)
      = ⌊v * 255 / 100⌋ := by
  have hq : (0 : ℚ) ≤ v * 255 / 100 := by positivity
  have hfl : pyInt (v * 255 / 100) = ⌊v * 255 / 100⌋ := pyInt_eq_floor _ hq
  have hub : ⌊v * 255 / 100⌋ ≤ 255 := by
    have : v * 255 / 100 ≤ 255 := by linarith
    calc ⌊v * 255 / 100⌋ ≤ ⌊(255 : ℚ)⌋ := Int.floor_le_floor this
    _ = 255 := by norm_num
  have hlb : 0 ≤ ⌊v * 255 / 100⌋ := Int.floor_nonneg.2 hq
  refine ⟨execute_dimmer_single v a buf, hfl, ?_⟩
  · rw [hfl]
    exact (dmx_set_get_spec buf hlen a ⌊v * 255 / 100⌋).1 ha1 ha2 hlb hub

/-- For a color event whose payload resolution succeeds (a dict, an absent
payload, or a parsable hex string), executing the event never errors. -/
theorem execChannels_color_ok (pd : PatchedDevice) (ev : DmxEvent) (c : RGBW)
    (h1 : ev.etype = "color") (hres : resolveColor ev.color = Except.ok c)
    (channels : List String) :
    ∀ (i : Nat) (buf : List Nat),
      ∃ buf2, execChannels pd ev channels i buf = Except.ok buf2 := by
  induction channels with
  | nil => intro i buf; exact ⟨buf, rfl⟩
  | cons ct rest ih =>
      intro i buf
      unfold execChannels
      rw [h1, if_neg (fun h => absurd h.1 (by decide)), if_pos rfl, hres]
      simp only [Except.bind]
      split
      · exact ih _ _
      · split
        · exact ih _ _
        · split
          · exact ih _ _
          · split
            · exact ih _ _
            · exact ih _ _

theorem dimmer_event_scaling_witness :
    execute_dmx_event (fun _ => some ⟨1, ["dimmer_channel"]⟩)
        ⟨3, "dimmer", EventValue.num 50, none⟩ DMXController.initDmx
      = Except.ok (DMXController.set_channel DMXController.initDmx 1
          (pyInt ((50 : ℚ) * 255 / 100)))
    ∧ pyInt ((50 : ℚ) * 255 / 100) = ⌊(50 : ℚ) * 255 / 100⌋
    ∧ (DMXController.get_channel
        (DMXController.set_channel DMXController.initDmx 1
          (pyInt ((50 : ℚ) * 255 / 100))) 1 : Int)
      = ⌊(50 : ℚ) * 255 / 100⌋ :=
  dimmer_event_scaling 50 1 DMXController.initDmx (by decide) (by decide)
    (by decide) (by decide) (List.length_replicate 512 0)

/-- C5, as stated, is false: a hex color string shorter than six hex
digits is not coerced or defaulted — the slice `hex_color[4:6]` of
`"#FF80"` is empty, `int('', 16)` raises `ValueError`, and the exception
propagates out of `execute_dmx_event` (killing the playback loop, which
calls it unguarded). -/
theorem short_hex_color_raises_cex :
    execute_dmx_event (fun _ => some ⟨1, ["red_channel"]⟩)
        ⟨2, "color", EventValue.num 0, some (ColorPayload.hexStr "#FF80")⟩
        DMXController.initDmx
      = Except.error "ValueError: invalid literal for int with base 16" := by
  rfl

/-- C5 (amended): a color payload given as an `{r,g,b,w}` dict with missing
components, or absent entirely, is defaulted rather than rejected —
execution never errors and missing components read as 0 (a white channel
with no `w` key is written 0); and the full hex string `"#FF8000"`
resolves to r=255, g=128, b=0 with white defaulting to 0.  But a hex
string shorter than six hex digits raises and aborts the event (see the
counterexample), so "never raises" holds only away from short hex
strings. -/
theorem color_event_defaults (lookup : Nat → Option PatchedDevice)
    (ev : DmxEvent) (buf : List Nat) (h1 : ev.etype = "color")
    (h2 : ev.color = none ∨ ∃ r g b w, ev.color = some (ColorPayload.rgbw r g b w)) :
    (∃ buf2, execute_dmx_event lookup ev buf = Except.ok buf2)
    ∧ (∀ (a : Int) (buf3 : List Nat) (r g b : Option Int),
        execute_dmx_event (fun _ => some ⟨a, ["white_channel"]⟩)
            ⟨2, "color", EventValue.num 0, some (ColorPayload.rgbw r g b none)⟩ buf3
          = Except.ok (DMXController.set_channel buf3 a 0))
    ∧ resolveColor (some (ColorPayload.hexStr "#FF8000"))
        = Except.ok ⟨some 255, some 128, some 0, none⟩ := by
  refine ⟨?_, ?_, by rfl⟩
  · have hres : ∃ c, resolveColor ev.color = Except.ok c := by
      rcases h2 with h | ⟨r, g, b, w, h⟩
      · exact ⟨⟨none, none, none, none⟩, by rw [h]; rfl⟩
      · exact ⟨⟨r, g, b, w⟩, by rw [h]; rfl⟩
    obtain ⟨c, hc⟩ := hres
    unfold execute_dmx_event
    cases lookup ev.device_id with
    | none => exact ⟨buf, rfl⟩
    | some pd => exact execChannels_color_ok pd ev c h1 hc pd.channels 0 buf
  · intro a buf3 r g b
    simp only [execute_dmx_event, execChannels]
    norm_num
    rfl

theorem color_event_defaults_witness :
    (⟨2, "color", EventValue.num 0, some (ColorPayload.rgbw (some 9) none none none)⟩
        : DmxEvent).etype = "color"
    ∧ (∃ buf2,
        execute_dmx_event (fun _ => some ⟨1, ["red_channel", "white_channel"]⟩)
          ⟨2, "color", EventValue.num 0, some (ColorPayload.rgbw (some 9) none none none)⟩
          DMXController.initDmx = Except.ok buf2)
    ∧ resolveColor (some (ColorPayload.hexStr "#FF8000"))
        = Except.ok ⟨some 255, some 128, some 0, none⟩ :=
  ⟨rfl,
   (color_event_defaults (fun _ => some ⟨1, ["red_channel", "white_channel"]⟩)
      ⟨2, "color", EventValue.num 0, some (ColorPayload.rgbw (some 9) none none none)⟩
      DMXController.initDmx rfl
      (Or.inr ⟨some 9, none, none, none, rfl⟩)).1,
   (color_event_defaults (fun _ => some ⟨1, ["red_channel", "white_channel"]⟩)
      ⟨2, "color", EventValue.num 0, some (ColorPayload.rgbw (some 9) none none none)⟩
      DMXController.initDmx rfl
      (Or.inr ⟨some 9, none, none, none, rfl⟩)).2.2⟩

/-! ## Claims about the sequence scheduler -/

theorem mem_insertByTime {e a : LoopEvent} :
    ∀ {l : List LoopEvent}, a ∈ insertByTime e l ↔ a = e ∨ a ∈ l := by
  intro l
  induction l with
  | nil => simp [insertByTime]
  | cons x xs ih =>
      unfold insertByTime
      split
      · simp only [List.mem_cons, ih]
        tauto
      · simp only [List.mem_cons]

theorem pairwise_insertByTime (e : LoopEvent) :
    ∀ (l : List LoopEvent), l.Pairwise (fun x y => x.time ≤ y.time) →
      (insertByTime e l).Pairwise (fun x y => x.time ≤ y.time) := by
  intro l
  induction l with
  | nil => intro _; exact List.pairwise_singleton _ _
  | cons x xs ih =>
      intro h
      rcases List.pairwise_cons.1 h with ⟨hx, hxs⟩
      unfold insertByTime
      split
      · rename_i hlt
        refine List.pairwise_cons.2 ⟨?_, ih hxs⟩
        intro y hy
        rcases mem_insertByTime.1 hy with rfl | hy2
        · exact le_of_lt hlt
        · exact hx y hy2
      · rename_i hge
        refine List.pairwise_cons.2 ⟨?_, h⟩
        intro y hy
        rcases List.mem_cons.1 hy with rfl | hy2
        · exact le_of_not_lt hge
        · exact le_trans (le_of_not_lt hge) (hx y hy2)

theorem pairwise_sortByTime (l : List LoopEvent) :
    (sortByTime l).Pairwise (fun x y => x.time ≤ y.time) := by
  induction l with
  | nil => exact List.Pairwise.nil
  | cons e es ih => exact pairwise_insertByTime e (sortByTime es) ih

theorem dropWhile_time_ge (p : ℚ) :
    ∀ (l : List LoopEvent), l.Pairwise (fun x y => x.time ≤ y.time) →
      ∀ e ∈ l.dropWhile (fun e => decide (e.time < p)), p ≤ e.time := by
  intro l
  induction l with
  | nil => intro _ e he; simp at he
  | cons x xs ih =>
      intro h
      rcases List.pairwise_cons.1 h with ⟨hx, hxs⟩
      by_cases hcond : x.time < p
      · rw [List.dropWhile_cons_of_pos (by simpa using hcond)]
        exact ih hxs
      · rw [List.dropWhile_cons_of_neg (by simpa using hcond)]
        intro e he
        rcases List.mem_cons.1 he with rfl | he2
        · exact le_of_not_lt hcond
        · exact le_trans (le_of_not_lt hcond) (hx e he2)

/-- The tick loop only ever fires events taken from the front of
`remaining`, so a lower time bound on `remaining` and on the fired log is
an invariant. -/
theorem runTicks_fired_ge (startW offset p : ℚ) :
    ∀ (ticks : List (ℚ × Bool)) (st : LoopState),
      (∀ e ∈ st.remaining, p ≤ e.time) → (∀ e ∈ st.fired, p ≤ e.time) →
      ∀ e ∈ (runTicks startW offset st ticks).fired, p ≤ e.time := by
  intro ticks
  induction ticks with
  | nil => intro st _ hf; exact hf
  | cons t rest ih =>
      intro st hrem hf
      unfold runTicks
      split
      · apply ih
        · intro e he
          exact hrem e ((List.dropWhile_sublist _).subset he)
        · intro e he
          rcases List.mem_append.1 he with he1 | he2
          · exact hf e he1
          · exact hrem e ((List.takeWhile_sublist _).subset he2)
      · exact hf

/-- A scheduler loop started at offset `p` never fires any event whose
time is strictly before `p`: the skip loop discards the sorted prefix
with `time < p`, and every later tick fires only events at or after it. -/
theorem sequence_loop_fired_ge_offset (events : List LoopEvent)
    (offset startW : ℚ) (ticks : List (ℚ × Bool)) :
    ∀ e ∈ (sequence_playback_loop events offset startW ticks).fired,
      offset ≤ e.time := by
  unfold sequence_playback_loop
  apply runTicks_fired_ge
  · exact dropWhile_time_ge offset (sortByTime events) (pairwise_sortByTime events)
  · intro e he
    simp at he

section
attribute [local semireducible] Rat.add Rat.sub Rat.mul Rat.inv

/-- C1: the code contradicts the claim.  `pause_playback` sets the global
`is_playing` to `False`, which makes the `while is_playing and (...)`
condition of `sequence_playback_loop` fail at its next check, so the
scheduler thread returns permanently; `resume_playback` restarts the
audio but no scheduler loop exists any more, and no events at all fire
after a pause/resume cycle.  Concretely: one event at t=1s (duration 2s),
loop started at wall 0 with offset 0, ticks at wall 0.5s, then 0.6s with
the flag lowered by a pause, then ticks at 5.6s–7s with the flag raised
again by a resume — nothing is ever fired, although the same loop without
the pause fires the event (second conjunct), and the claim's
pause-adjusted clock would reach t=1 at wall 6.0s. -/
theorem pause_resume_fires_no_events :
    (sequence_playback_loop [⟨1, 2, 0⟩] 0 0
        [(1/2, true), (3/5, false), (28/5, true), (33/5, true), (7, true)]).fired
      = []
    ∧ (sequence_playback_loop [⟨1, 2, 0⟩] 0 0
        [(1/2, true), (3/5, true), (6/5, true)]).fired = [⟨1, 2, 0⟩] := by
  constructor <;> decide

/-- C3, as stated, is false: `/api/seek-sequence` calls only
`audio_player.seek(position)`; the running `sequence_playback_loop`
thread keeps its own `start_time`/`event_index` locals and is not
informed.  Concretely: with one event at t=0.2s and playback started at
offset 0, seeking to p=0.5s at wall time 0.1s succeeds on the audio side
(first two conjuncts), yet the scheduler — ticking at wall 0.05s and
0.3s, before and after the seek — still fires the t=0.2s event, and
0.2 < 0.5, contradicting "fires only events with time ≥ p from that
point on". -/
theorem seek_does_not_skip_scheduler_cex :
    (seek_sequence (1/10) (1/2)
        (play_sequence 0 true 1 "t.mp3" 0 initPlayback).1).2 = true
    ∧ (seek_sequence (1/10) (1/2)
        (play_sequence 0 true 1 "t.mp3" 0 initPlayback).1).1.audio.seek_offset
      = 1/2
    ∧ (sequence_playback_loop [⟨1/5, 2, 7⟩] 0 0
        [(1/20, true), (3/10, true)]).fired = [⟨1/5, 2, 7⟩]
    ∧ ((1 : ℚ)/5 < 1/2) := by
  exact ⟨by decide, by decide, by decide, by decide⟩

/-- C3 (amended): seeking to `p` while playing restarts the audio from
`p` (success, offset `p`, fresh start timestamp, still playing); the
event scheduler skips all events with time < `p` only when `p` is the
start offset the loop was started with (`play_sequence(sequence, p)`): a
loop started at offset `p` fires no event with time < `p`.  A seek issued
mid-playback does not affect the already-running scheduler (see the
counterexample). -/
theorem seek_restarts_audio_and_start_offset_skip (now p : ℚ)
    (s : AudioState) (hsong : s.current_song.isSome = true)
    (hplay : s.is_playing = true) :
    ((AudioPlayer.seek now p s).2 = true
      ∧ (AudioPlayer.seek now p s).1.seek_offset = p
      ∧ (AudioPlayer.seek now p s).1.start_time = now
      ∧ (AudioPlayer.seek now p s).1.is_playing = true)
    ∧ (∀ (events : List LoopEvent) (startW : ℚ) (ticks : List (ℚ × Bool)),
        ∀ e ∈ (sequence_playback_loop events p startW ticks).fired,
          p ≤ e.time) := by
  constructor
  · cases hs : s.current_song with
    | none => rw [hs] at hsong; simp at hsong
    | some song => simp [AudioPlayer.seek, hs, hplay]
  · intro events startW ticks
    exact sequence_loop_fired_ge_offset events p startW ticks

theorem seek_restarts_audio_witness :
    ((AudioPlayer.seek 1 (1/2)
        ((AudioPlayer.play 0 0
          (AudioPlayer.load_song true "t.mp3" AudioPlayer.initAudio).1).1)).2
      = true)
    ∧ ((1 : ℚ)/2 ≤ (⟨3/4, 2, 2⟩ : LoopEvent).time) := by
  have h := seek_restarts_audio_and_start_offset_skip 1 (1/2)
      ((AudioPlayer.play 0 0
        (AudioPlayer.load_song true "t.mp3" AudioPlayer.initAudio).1).1)
      (by decide) (by decide)
  exact ⟨h.1.1,
    h.2 [⟨1/5, 2, 1⟩, ⟨3/4, 2, 2⟩] 0 [(1, true)] ⟨3/4, 2, 2⟩ (by decide)⟩

end

end Gazelle
